import Mathlib

/-!
Shallow embedding of the `jfabello/http-test-server` package
(`src/http-test-server.js`, `src/defaults.js`, `src/regexes.js`) and proofs of
the specification's claims about it.  Buffers are modelled as sizes together
with byte functions, streams as explicit event lists, and the promise-based
lifecycle as a state machine with explicit completion transitions.
-/

namespace HTTPTestServer

/-! ## Fixtures (`src/defaults.js`) -/

/-- `defaults.PATTERN_STRING` from `src/defaults.js`. -/
def PATTERN_STRING : String := "This is a pattern!"

/-- UTF-8 bytes of the pattern string.  The string is pure ASCII, so its UTF-8
encoding is the list of its character code points. -/
def patternStringBytes : List Nat := PATTERN_STRING.data.map Char.toNat

/-- `defaults.PATTERN_SIZE` from `src/defaults.js` (2 MB). -/
def PATTERN_SIZE : Nat := 2 * 1000 * 1000

/-- `defaults.PATTERN_STRING_REPEAT` from `src/defaults.js`. -/
def PATTERN_STRING_REPEAT : Nat := 100000

/-- `defaults.BIG_FILE_SIZE` from `src/defaults.js` (500 MB). -/
def BIG_FILE_SIZE : Nat := 500 * 1000 * 1000

/-! ## Byte buffers

A Node `Buffer` is modelled by its size and a byte-lookup function; only the
first `size` values of `byte` are meaningful. -/

/-- Model of a Node `Buffer`: a size and a byte-lookup function. -/
structure Buf where
  size : Nat
  byte : Nat → Nat

/-- Model of `Buffer.alloc(size, fill, "utf8")`: the buffer is filled by
repeating the fill bytes cyclically, truncated at `size`. -/
def allocFill (size : Nat) (fill : List Nat) : Buf :=
  ⟨size, fun i => fill.getD (i % fill.length) 0⟩

/-- A buffer holding exactly the bytes of a list (model of `Buffer.from`). -/
def listBuf (l : List Nat) : Buf :=
  ⟨l.length, fun i => l.getD i 0⟩

/-- Bytes of `s.repeat n` for an ASCII byte list `s` (model of
`String.prototype.repeat`). -/
def repBytes (s : List Nat) (n : Nat) : List Nat :=
  (List.replicate n s).flatten

/-- A buffer holding the UTF-8 bytes of an ASCII string. -/
def strBuf (s : String) : Buf :=
  listBuf (s.data.map Char.toNat)

/-- The `patternBuffer` built in the `/checkpattern` branch:
`Buffer.alloc(defaults.PATTERN_SIZE, defaults.PATTERN_STRING, "utf8")`. -/
def patternBuffer : Buf := allocFill PATTERN_SIZE patternStringBytes

/-- The `patternBuffer` built in the `/checkstring` branch:
`Buffer.from(defaults.PATTERN_STRING.repeat(defaults.PATTERN_STRING_REPEAT), "utf8")`. -/
def stringPatternBuffer : Buf := listBuf (repBytes patternStringBytes PATTERN_STRING_REPEAT)

/-- Model of `Buffer.compare(a, b) === 0`: equal sizes and equal bytes at every
index below the size. -/
def bufEqb (a b : Buf) : Bool :=
  (a.size == b.size) && (List.range a.size).all (fun i => a.byte i == b.byte i)

/-! ## Body accumulator (`#processRequest`, "data"/"end" handlers) -/

/-- The request-body accumulation state of one request session:
`requestBodyBufferSize`, `requestBodyArrayOfBuffers` (set to null after
concatenation) and `requestBodyBuffer` (null until assigned). -/
structure BodyAccum where
  requestBodyBufferSize : Nat
  requestBodyArrayOfBuffers : Option (List (List Nat))
  requestBodyBuffer : Option (List Nat)
deriving DecidableEq

/-- Initial accumulation state of `#processRequest`: size 0, empty chunk
array, null body buffer. -/
def initAccum : BodyAccum :=
  ⟨0, some [], none⟩

/-- The request "data" handler: pushes the chunk and adds its length to the
running size. -/
def onData (chunk : List Nat) (s : BodyAccum) : BodyAccum :=
  { s with
    requestBodyArrayOfBuffers := s.requestBodyArrayOfBuffers.map (fun a => a ++ [chunk]),
    requestBodyBufferSize := s.requestBodyBufferSize + chunk.length }

/-- The request "end" handler: when bytes arrived, concatenates the chunk
array (`Buffer.concat`) into `requestBodyBuffer` and nulls the array;
otherwise leaves the null body buffer in place. -/
def onEnd (s : BodyAccum) : BodyAccum :=
  if s.requestBodyBufferSize > 0 then
    { s with
      requestBodyBuffer := some (s.requestBodyArrayOfBuffers.getD []).flatten,
      requestBodyArrayOfBuffers := none }
  else s

/-- The body a finished session recorded: the concatenated buffer, or no bytes
when the buffer is still null. -/
def recordedBody (s : BodyAccum) : List Nat :=
  (s.requestBodyBuffer.getD [])

/-- Feeds an ordered sequence of inbound chunks to the "data" handler. -/
def feedChunks (chunks : List (List Nat)) (s : BodyAccum) : BodyAccum :=
  chunks.foldl (fun st c => onData c st) s

/-! ## Timer/interval registry (`#processRequest` local state and
`clearTimersAndIntervals`) -/

/-- The six timer/interval handle records of one request session, in the
declaration order of `#processRequest`.  `none` models a null record. -/
structure TimerSlots where
  silentTimeoutTimer : Option Nat
  noisyRejectionSendResponseTimer : Option Nat
  noisyRejectionSendResponseInterval : Option Nat
  noisyTimeoutSendResponseTimer : Option Nat
  noisyTimeoutSendResponseInterval : Option Nat
  noisyTimeoutTimer : Option Nat
deriving DecidableEq

/-- Timer bookkeeping state of a session: the handle records plus the log of
handles passed to `clearTimeout`/`clearInterval`, in call order. -/
structure TimerState where
  slots : TimerSlots
  cleared : List Nat
deriving DecidableEq

/-- One `if (handle !== null) { clear...(handle); handle = null; }` block of
`clearTimersAndIntervals`: a non-null handle is cancelled (appended to the
log) and its record nulled; a null record is left untouched. -/
def clearSlot (h : Option Nat) (log : List Nat) : Option Nat × List Nat :=
  match h with
  | none => (none, log)
  | some t => (none, log ++ [t])

/-- `clearTimersAndIntervals` from `#processRequest`: clears the six records
in source order (silent timeout timer, noisy rejection interval, noisy
rejection timer, noisy timeout interval, noisy timeout send timer, noisy
timeout timer). -/
def clearTimersAndIntervals (s : TimerState) : TimerState :=
  let r1 := clearSlot s.slots.silentTimeoutTimer s.cleared
  let r2 := clearSlot s.slots.noisyRejectionSendResponseInterval r1.2
  let r3 := clearSlot s.slots.noisyRejectionSendResponseTimer r2.2
  let r4 := clearSlot s.slots.noisyTimeoutSendResponseInterval r3.2
  let r5 := clearSlot s.slots.noisyTimeoutSendResponseTimer r4.2
  let r6 := clearSlot s.slots.noisyTimeoutTimer r5.2
  ⟨⟨r1.1, r3.1, r2.1, r5.1, r4.1, r6.1⟩, r6.2⟩

/-- The handles currently registered in a session's records, in the order
`clearTimersAndIntervals` visits them. -/
def registeredHandles (sl : TimerSlots) : List Nat :=
  sl.silentTimeoutTimer.toList ++ sl.noisyRejectionSendResponseInterval.toList ++
    sl.noisyRejectionSendResponseTimer.toList ++ sl.noisyTimeoutSendResponseInterval.toList ++
    sl.noisyTimeoutSendResponseTimer.toList ++ sl.noisyTimeoutTimer.toList

/-- The three session teardown events that reach the timer registry: the
request "error" handler, the response "error" handler and the response
"close" handler. -/
inductive TeardownEvent where
  | requestError
  | responseError
  | responseClose
deriving DecidableEq

/-- Effect of a teardown event on the timer state.  Each of the three handlers
calls `clearTimersAndIntervals`; their remaining work (destroying the request
or response socket) does not touch the timer records. -/
def applyEvent (_e : TeardownEvent) (s : TimerState) : TimerState :=
  clearTimersAndIntervals s

/-- Applies a sequence of teardown events in order. -/
def applyEvents (es : List TeardownEvent) (s : TimerState) : TimerState :=
  es.foldl (fun st e => applyEvent e st) s

/-! ## Server lifecycle state machine (`constructor`, `start`, `stop`) -/

/-- The five server states (`#CREATED` .. `#STOPPED`). -/
inductive ServerState where
  | created
  | starting
  | listening
  | stopping
  | stopped
deriving DecidableEq

/-- The observable instance state of an `HTTPTestServer`: current state,
recorded host and port, the two memoized promises (by identity number) and a
counter supplying fresh promise identities. -/
structure Server where
  state : ServerState
  host : String
  port : Int
  startPromise : Option Nat
  stopPromise : Option Nat
  nextPromise : Nat
deriving DecidableEq

/-- Outcome of a synchronous `start()` call. -/
inductive StartResult where
  | reused (p : Option Nat)
  | notStartable
  | launched (p : Nat) (prev : ServerState) (s : Server)
deriving DecidableEq

/-- `start()` from `src/http-test-server.js`: in STARTING/LISTENING it returns
the existing `#serverStartPromise`; in any other state except CREATED/STOPPED
it throws `ERROR_HTTP_TEST_SERVER_NOT_IN_STARTABLE_STATE`; otherwise it
captures the previous state, moves to STARTING, creates a fresh pending
promise and calls `listen`. -/
def start (s : Server) : StartResult :=
  if s.state = ServerState.starting ∨ s.state = ServerState.listening then
    StartResult.reused s.startPromise
  else if s.state ≠ ServerState.created ∧ s.state ≠ ServerState.stopped then
    StartResult.notStartable
  else
    StartResult.launched s.nextPromise s.state
      { s with
        state := ServerState.starting,
        startPromise := some s.nextPromise,
        nextPromise := s.nextPromise + 1 }

/-- The "listening" completion of a pending start: records the actually bound
address and port from `server.address()`, moves to LISTENING, and resolves the
promise to the new state. -/
def startOnListening (s : Server) (boundHost : String) (boundPort : Int) : Server × ServerState :=
  (⟨ServerState.listening, boundHost, boundPort, s.startPromise, s.stopPromise, s.nextPromise⟩,
    ServerState.listening)

/-- The "error" completion of a pending start: reverts to the state captured
before the call and rejects the promise with the error built from the OS-level
error code (`createErrorFromSystemErrorCode(error.code)`). -/
def startOnError (s : Server) (prev : ServerState) (code : String) : Server × String :=
  ({ s with state := prev }, code)

/-- Outcome of a synchronous `stop()` call. -/
inductive StopResult where
  | reused (p : Option Nat)
  | notStoppable
  | launched (p : Nat) (prev : ServerState) (s : Server)
deriving DecidableEq

/-- `stop()` from `src/http-test-server.js`: in STOPPING/STOPPED it returns
the existing `#serverStopPromise`; in any other state except LISTENING it
throws `ERROR_HTTP_TEST_SERVER_NOT_IN_STOPPABLE_STATE`; otherwise it captures
the previous state, moves to STOPPING, creates a fresh pending promise and
calls `close`. -/
def stop (s : Server) : StopResult :=
  if s.state = ServerState.stopping ∨ s.state = ServerState.stopped then
    StopResult.reused s.stopPromise
  else if s.state ≠ ServerState.listening then
    StopResult.notStoppable
  else
    StopResult.launched s.nextPromise s.state
      { s with
        state := ServerState.stopping,
        stopPromise := some s.nextPromise,
        nextPromise := s.nextPromise + 1 }

/-- The "close" completion of a pending stop: moves to STOPPED and resolves
the promise to the new state. -/
def stopOnClose (s : Server) : Server × ServerState :=
  ({ s with state := ServerState.stopped }, ServerState.stopped)

/-- The "error" completion of a pending stop: reverts to the state captured
before the call and rejects the promise with the error built from the
OS-level error code. -/
def stopOnError (s : Server) (prev : ServerState) (code : String) : Server × String :=
  ({ s with state := prev }, code)

/-! ## Constructor validation (`constructor`, `src/regexes.js`) -/

/-- A JavaScript value as far as the constructor's checks observe it: a
string, an integer number, a non-integer number, `undefined`, `null`, or
anything else. -/
inductive JSVal where
  | str (s : String)
  | int (n : Int)
  | nonIntNum
  | undef
  | null
  | other
deriving DecidableEq

/-- Destructuring default for `serverHost`: `undefined` selects
`defaults.SERVER_HOST` (`"127.0.0.1"`). -/
def resolveHost (v : JSVal) : JSVal :=
  match v with
  | JSVal.undef => JSVal.str "127.0.0.1"
  | x => x

/-- Destructuring default for `serverPort`: `undefined` selects
`defaults.SERVER_PORT` (`8080`). -/
def resolvePort (v : JSVal) : JSVal :=
  match v with
  | JSVal.undef => JSVal.int 8080
  | x => x

/-- Character class test for `[0-9]`. -/
def isDigitCh (c : Char) : Bool :=
  48 ≤ c.toNat && c.toNat ≤ 57

/-- Character class test for `[a-zA-Z]`. -/
def isAlphaCh (c : Char) : Bool :=
  (65 ≤ c.toNat && c.toNat ≤ 90) || (97 ≤ c.toNat && c.toNat ≤ 122)

/-- Character class test for `[a-zA-Z0-9]`. -/
def isAlnumCh (c : Char) : Bool :=
  isAlphaCh c || isDigitCh c

/-- The hyphen character. -/
def hyphenCh : Char := Char.ofNat 45

/-- The dot character. -/
def dotCh : Char := Char.ofNat 46

/-- One octet of `regexes.IPV4_ADDRESS`:
`1?[0-9]\x7b1,2\x7d|2[0-4][0-9]|25[0-5]` (anchored to the whole group). -/
def ipv4OctetMatch (cs : List Char) : Bool :=
  match cs with
  | [a] => isDigitCh a
  | [a, b] => isDigitCh a && isDigitCh b
  | [a, b, c] =>
    (a.toNat == 49 && isDigitCh b && isDigitCh c) ||
      (a.toNat == 50 && (48 ≤ b.toNat && b.toNat ≤ 52) && isDigitCh c) ||
      (a.toNat == 50 && b.toNat == 53 && (48 ≤ c.toNat && c.toNat ≤ 53))
  | _ => false

/-- `regexes.IPV4_ADDRESS`: four octets separated by dots, anchored. -/
def ipv4Match (s : String) : Bool :=
  match s.data.splitOn dotCh with
  | [a, b, c, d] => ipv4OctetMatch a && ipv4OctetMatch b && ipv4OctetMatch c && ipv4OctetMatch d
  | _ => false

/-- One hostname label:
`[a-zA-Z0-9]|[a-zA-Z0-9][a-zA-Z0-9\-]*[a-zA-Z0-9]` (anchored). -/
def labelMatch (cs : List Char) : Bool :=
  match cs with
  | [] => false
  | [a] => isAlnumCh a
  | a :: rest =>
    isAlnumCh a && (rest.dropLast.all fun c => isAlnumCh c || c == hyphenCh) &&
      isAlnumCh (rest.getLastD a)

/-- `regexes.HOST_NAME`: a single label, anchored. -/
def hostNameMatch (s : String) : Bool :=
  labelMatch s.data

/-- `regexes.FQDN`: one or more dot-terminated labels followed by a non-empty
run of letters, anchored. -/
def fqdnMatch (s : String) : Bool :=
  match s.data.splitOn dotCh with
  | [] => false
  | [_] => false
  | parts =>
    (parts.dropLast.all labelMatch) &&
      (decide ((parts.getLastD []) ≠ []) && (parts.getLastD []).all isAlphaCh)

/-- The four configuration errors the constructor can throw. -/
inductive CtorError where
  | hostTypeInvalid
  | hostInvalid
  | portTypeInvalid
  | portOutOfBounds
deriving DecidableEq

/-- The `HTTPTestServer` constructor: applies the destructuring defaults, then
checks host type (`typeof serverHost !== "string"`), host syntax (the three
regexes), port type (`Number.isInteger`), and port bounds, throwing the
corresponding error at the first failure; only when all checks pass does it
create the underlying `http.Server` and set the state to CREATED.  A thrown
error is modelled as `Except.error`, so no server value (and hence no socket
resource) exists on failure. -/
def construct (serverHostOpt serverPortOpt : JSVal) : Except CtorError Server :=
  let serverHost := resolveHost serverHostOpt
  let serverPort := resolvePort serverPortOpt
  match serverHost with
  | JSVal.str h =>
    if ipv4Match h = false ∧ hostNameMatch h = false ∧ fqdnMatch h = false then
      Except.error CtorError.hostInvalid
    else
      match serverPort with
      | JSVal.int p =>
        if p < 0 ∨ p > 65535 then Except.error CtorError.portOutOfBounds
        else Except.ok ⟨ServerState.created, h, p, none, none, 0⟩
      | _ => Except.error CtorError.portTypeInvalid
  | _ => Except.error CtorError.hostTypeInvalid

/-- ASCII uppercase conversion of one character, as
`String.prototype.toUpperCase` acts on the ASCII strings the handlers
compare. -/
def upperCh (c : Char) : Char :=
  if 97 ≤ c.toNat ∧ c.toNat ≤ 122 then Char.ofNat (c.toNat - 32) else c

/-- ASCII lowercase conversion of one character, as
`String.prototype.toLowerCase` acts on the ASCII strings the handlers
compare. -/
def lowerCh (c : Char) : Char :=
  if 65 ≤ c.toNat ∧ c.toNat ≤ 90 then Char.ofNat (c.toNat + 32) else c

/-- `String.prototype.toUpperCase` on ASCII strings. -/
def jsToUpper (s : String) : String := ⟨s.data.map upperCh⟩

/-- `String.prototype.toLowerCase` on ASCII strings. -/
def jsToLower (s : String) : String := ⟨s.data.map lowerCh⟩

/-! ## HTTP responses -/

/-- The observable response of a handler branch: status code, the
`Content-Type` and `Content-Length` headers when set, and the body bytes
written (none models an empty body, as after `writeHead(400); end()`). -/
structure Response where
  status : Nat
  contentType : Option String
  contentLength : Option Nat
  body : Option Buf

/-- The empty-body 400 response produced by
`response.writeHead(400); response.end()`. -/
def resp400 : Response := ⟨400, none, none, none⟩

/-- `#sendPlainTextResponseWithLogging`: sets the plain-text content type,
writes the status and ends the response with the message as its body. -/
def sendPlainTextResponse (statusCode : Nat) (message : String) : Response :=
  ⟨statusCode, some "text/plain; charset=UTF-8", none, some (strBuf message)⟩

/-! ## `/checkpattern` and `/checkstring` branches of the request "close"
handler

The accumulated request body is `none` when `requestBodyBuffer` is still
null (no bytes arrived).  The combined validation condition is evaluated
left to right with JavaScript short-circuiting; when the first three
conditions are false and the body buffer is null, the evaluation reaches
`Buffer.compare(patternBuffer, null)`, which throws a `TypeError`
(`ERR_INVALID_ARG_TYPE`) — modelled as `Except.error ()`. -/

/-- The `/checkpattern` branch: validates method, `content-type` header and
body against `patternBuffer`, responding 400 on mismatch and otherwise
echoing the received bytes with `Content-Length` set to
`defaults.PATTERN_SIZE`. -/
def checkpatternClose (method : String) (contentType : Option String)
    (body : Option Buf) : Except Unit Response :=
  if jsToUpper method ≠ "POST" then Except.ok resp400
  else
    match contentType with
    | none => Except.ok resp400
    | some c =>
      if jsToLower c ≠ "application/octet-stream" then Except.ok resp400
      else
        match body with
        | none => Except.error ()
        | some b =>
          if bufEqb patternBuffer b then
            Except.ok ⟨200, some "application/octet-stream", some PATTERN_SIZE, some b⟩
          else Except.ok resp400

/-- The `/checkstring` branch: validates method, `content-type` header and
body against `stringPatternBuffer`, responding 400 on mismatch and otherwise
echoing the received bytes with `Content-Length` set to
`requestBodyBuffer.length`. -/
def checkstringClose (method : String) (contentType : Option String)
    (body : Option Buf) : Except Unit Response :=
  if jsToUpper method ≠ "POST" then Except.ok resp400
  else
    match contentType with
    | none => Except.ok resp400
    | some c =>
      if jsToLower c ≠ "text/plain" then Except.ok resp400
      else
        match body with
        | none => Except.error ()
        | some b =>
          if bufEqb stringPatternBuffer b then
            Except.ok ⟨200, some "text/plain", some b.size, some b⟩
          else Except.ok resp400

/-! ## Chunked transfer writer (`writeResponseBody` closures)

The `/bigrandomfile`, `/checkpattern`, `/checkstring` and `/checkjson`
branches all run the same loop: while bytes remain, write a chunk of size
`min(writableHighWaterMark, remaining)`; when `response.write` returns false,
subscribe `writeResponseBody` to the next "drain" event and return; when the
loop drains the source, call `response.end()`.  The transport is modelled by
a backpressure oracle mapping the index of each write to the boolean
`response.write` returns; the "drain" event re-invokes the closure. -/

/-- Observable events of one run of the chunked writer. -/
inductive WEvent where
  | wchunk (chunk : List Nat)
  | suspendW
  | drainW
  | endW
deriving DecidableEq

/-- The writer loop, with explicit fuel (each iteration consumes at least one
source byte when the high-water mark is positive, so `src.length + 1` fuel
suffices).  `idx` numbers the writes for the backpressure oracle. -/
def writeLoopAux (hwm : Nat) (oracle : Nat → Bool) :
    Nat → Nat → List Nat → List WEvent
  | 0, _, _ => []
  | _ + 1, _, [] => [WEvent.endW]
  | fuel + 1, idx, rest@(_ :: _) =>
    let k := min hwm rest.length
    if oracle idx then
      WEvent.wchunk (rest.take k) :: writeLoopAux hwm oracle fuel (idx + 1) (rest.drop k)
    else
      WEvent.wchunk (rest.take k) :: WEvent.suspendW :: WEvent.drainW ::
        writeLoopAux hwm oracle fuel (idx + 1) (rest.drop k)

/-- One full run of `writeResponseBody` over a byte source. -/
def writeResponseBody (hwm : Nat) (oracle : Nat → Bool) (src : List Nat) : List WEvent :=
  writeLoopAux hwm oracle (src.length + 1) 0 src

/-- The chunks written during a run, in order. -/
def writtenChunks (es : List WEvent) : List (List Nat) :=
  es.filterMap fun e =>
    match e with
    | WEvent.wchunk c => some c
    | _ => none

/-- The intended partition of a source into consecutive chunks of size
`min hwm remaining` (with the same fuel bound as the writer). -/
def chunkPartitionAux (hwm : Nat) : Nat → List Nat → List (List Nat)
  | 0, _ => []
  | _ + 1, [] => []
  | fuel + 1, rest@(_ :: _) =>
    rest.take (min hwm rest.length) ::
      chunkPartitionAux hwm fuel (rest.drop (min hwm rest.length))

/-- The intended partition of a source into consecutive chunks of size
`min hwm remaining`. -/
def chunkPartition (hwm : Nat) (src : List Nat) : List (List Nat) :=
  chunkPartitionAux hwm (src.length + 1) src

/-- Backpressure discipline checker: scanning the event list with a blocked
flag, a write, a suspension or the final end may only happen while not
blocked, a suspension blocks, and only a drain unblocks. -/
def disciplinedAux : Bool → List WEvent → Bool
  | blocked, [] => !blocked
  | blocked, e :: es =>
    match e with
    | WEvent.wchunk _ => !blocked && disciplinedAux false es
    | WEvent.suspendW => !blocked && disciplinedAux true es
    | WEvent.drainW => blocked && disciplinedAux false es
    | WEvent.endW => !blocked && disciplinedAux false es

/-- Backpressure discipline over a whole run, starting unblocked. -/
def disciplined (es : List WEvent) : Bool :=
  disciplinedAux false es

/-! ## `/checkjson` branch

JSON values parsed by `JSON.parse` are modelled by `Json` (the fixture and
the claims involve only integral numbers); a JavaScript object keeps its keys
in insertion order and never holds a key twice.  `lodash.isEqual` compares
objects by key set (key order irrelevant) and arrays element by element;
`JSON.stringify` serializes in insertion order. -/

/-- A parsed JSON value. -/
inductive Json where
  | jnull
  | jbool (b : Bool)
  | jnum (n : Int)
  | jstr (s : String)
  | jarr (xs : List Json)
  | jobj (fields : List (String × Json))

mutual

/-- `lodash.isEqual` on parsed JSON values: deep equality with object keys
compared as a set. -/
def jsonEq : Json → Json → Bool
  | Json.jnull, Json.jnull => true
  | Json.jbool a, Json.jbool b => a == b
  | Json.jnum a, Json.jnum b => a == b
  | Json.jstr a, Json.jstr b => a == b
  | Json.jarr xs, Json.jarr ys => jsonListEq xs ys
  | Json.jobj xs, Json.jobj ys => (xs.length == ys.length) && jsonObjSub xs ys
  | _, _ => false
termination_by a b => (sizeOf a, 0)

/-- Element-wise deep equality of two JSON arrays. -/
def jsonListEq : List Json → List Json → Bool
  | [], [] => true
  | x :: xs, y :: ys => jsonEq x y && jsonListEq xs ys
  | _, _ => false
termination_by xs ys => (sizeOf xs, 0)

/-- Every field of the first object is present in the second with a
deep-equal value. -/
def jsonObjSub : List (String × Json) → List (String × Json) → Bool
  | [], _ => true
  | (k, v) :: rest, ys => jsonFind k v ys && jsonObjSub rest ys
termination_by xs ys => (sizeOf xs, 0)

/-- Looks up a key in an object's fields and deep-compares the value. -/
def jsonFind : String → Json → List (String × Json) → Bool
  | _, _, [] => false
  | k, v, (k2, w) :: rest => if k = k2 then jsonEq v w else jsonFind k v rest
termination_by k v ys => (sizeOf v, sizeOf ys + 1)

end

mutual

/-- `JSON.stringify` on a parsed JSON value (the fixture's strings need no
escaping). -/
def stringify : Json → String
  | Json.jnull => "null"
  | Json.jbool true => "true"
  | Json.jbool false => "false"
  | Json.jnum n => toString n
  | Json.jstr s => "\"" ++ s ++ "\""
  | Json.jarr xs => "[" ++ stringifyList xs ++ "]"
  | Json.jobj fs => "\x7b" ++ stringifyFields fs ++ "\x7d"
termination_by j => sizeOf j

/-- Comma-separated serialization of array elements. -/
def stringifyList : List Json → String
  | [] => ""
  | [x] => stringify x
  | x :: xs@(_ :: _) => stringify x ++ "," ++ stringifyList xs
termination_by xs => sizeOf xs

/-- Comma-separated serialization of object fields, in insertion order. -/
def stringifyFields : List (String × Json) → String
  | [] => ""
  | [(k, v)] => "\"" ++ k ++ "\":" ++ stringify v
  | (k, v) :: fs@(_ :: _) => "\"" ++ k ++ "\":" ++ stringify v ++ "," ++ stringifyFields fs
termination_by fs => sizeOf fs

end

/-- `defaults.JSON_OBJECT` from `src/defaults.js`, fields in source order. -/
def JSON_OBJECT : Json :=
  Json.jobj
    [("firstName", Json.jstr "John"),
     ("lastName", Json.jstr "Doe"),
     ("age", Json.jnum 25),
     ("address",
       Json.jobj
         [("street", Json.jstr "Somewhere"),
          ("city", Json.jstr "Anytown"),
          ("state", Json.jstr "CA"),
          ("zip", Json.jnum 12345)]),
     ("isActive", Json.jbool true)]

/-- The `/checkjson` branch: checks method, then the `content-type` header,
then parseability, then deep equality with the fixture, answering 400 with
the branch's own plain-text message at the first failing check; when all pass
it answers 200 `application/json` with the re-serialized canonical fixture.
`parsed` is the result of `JSON.parse(requestBodyBuffer.toString("utf8"))`:
`none` when the body is unparsable or the body buffer is null (both raise
inside the `try` block and are caught). -/
def checkjsonClose (method : String) (contentType : Option String)
    (parsed : Option Json) : Response :=
  if jsToUpper method ≠ "POST" then
    sendPlainTextResponse 400 "The HTTP request method is not POST."
  else
    match contentType with
    | none =>
      sendPlainTextResponse 400 "The HTTP request \"Content-Type\" header is not \"application/json\"."
    | some c =>
      if jsToLower c ≠ "application/json" then
        sendPlainTextResponse 400 "The HTTP request \"Content-Type\" header is not \"application/json\"."
      else
        match parsed with
        | none =>
          sendPlainTextResponse 400 "The HTTP request body is not parseable as JSON."
        | some obj =>
          if jsonEq obj JSON_OBJECT = false then
            sendPlainTextResponse 400 "The HTTP request body JSON object does not match the pattern JSON object."
          else
            ⟨200, some "application/json", some (strBuf (stringify JSON_OBJECT)).size,
              some (strBuf (stringify JSON_OBJECT))⟩

/-! ## Helper lemmas -/

theorem clearSlot_fst (h : Option Nat) (log : List Nat) : (clearSlot h log).1 = none := by
  cases h <;> rfl

theorem clearSlot_snd (h : Option Nat) (log : List Nat) :
    (clearSlot h log).2 = log ++ h.toList := by
  cases h <;> simp [clearSlot]

theorem clearTimersAndIntervals_slots (s : TimerState) :
    (clearTimersAndIntervals s).slots = ⟨none, none, none, none, none, none⟩ := by
  simp [clearTimersAndIntervals, clearSlot_fst]

theorem clearTimersAndIntervals_cleared (s : TimerState) :
    (clearTimersAndIntervals s).cleared = s.cleared ++ registeredHandles s.slots := by
  simp [clearTimersAndIntervals, clearSlot_snd, registeredHandles, List.append_assoc]

theorem clearTimersAndIntervals_of_empty (t : TimerState)
    (h : t.slots = ⟨none, none, none, none, none, none⟩) :
    clearTimersAndIntervals t = t := by
  obtain ⟨⟨a, b, c, d, e, f⟩, log⟩ := t
  simp only [TimerState.mk.injEq, TimerSlots.mk.injEq] at h
  obtain ⟨h1, h2, h3, h4, h5, h6⟩ := h
  subst h1 h2 h3 h4 h5 h6
  rfl

theorem clearTimersAndIntervals_idem (s : TimerState) :
    clearTimersAndIntervals (clearTimersAndIntervals s) = clearTimersAndIntervals s :=
  clearTimersAndIntervals_of_empty _ (clearTimersAndIntervals_slots s)

theorem applyEvents_ne_nil (es : List TeardownEvent) (s : TimerState) (h : es ≠ []) :
    applyEvents es s = clearTimersAndIntervals s := by
  induction es generalizing s with
  | nil => exact absurd rfl h
  | cons e es ih =>
    by_cases hes : es = []
    · subst hes
      rfl
    · show applyEvents es (applyEvent e s) = clearTimersAndIntervals s
      rw [ih _ hes]
      exact clearTimersAndIntervals_idem s

/-! ## Claims about the timer registry and the body accumulator -/

/-- C1: for every request session, `clearTimersAndIntervals` is idempotent:
invoked any number of times from the inbound-error, outbound-error and
outbound-close paths in any order, it cancels each registered handle at most
once (exactly once when the handles are distinct and nothing was cancelled
yet), nulls each record after cancelling, and a second invocation changes
nothing, so every handle registered during the session is removed exactly
once at teardown regardless of teardown cause. -/
theorem timerRegistry_spec (s : TimerState) (es : List TeardownEvent)
    (hne : es ≠ []) (hnd : (registeredHandles s.slots).Nodup) (hcl : s.cleared = []) :
    applyEvents es s = clearTimersAndIntervals s
    ∧ (clearTimersAndIntervals s).cleared = registeredHandles s.slots
    ∧ (clearTimersAndIntervals s).slots = ⟨none, none, none, none, none, none⟩
    ∧ clearTimersAndIntervals (clearTimersAndIntervals s) = clearTimersAndIntervals s
    ∧ ∀ h ∈ registeredHandles s.slots, (applyEvents es s).cleared.count h = 1 := by
  refine ⟨applyEvents_ne_nil es s hne, ?_, clearTimersAndIntervals_slots s,
    clearTimersAndIntervals_idem s, ?_⟩
  · rw [clearTimersAndIntervals_cleared, hcl, List.nil_append]
  · intro h hmem
    rw [applyEvents_ne_nil es s hne, clearTimersAndIntervals_cleared, hcl, List.nil_append]
    exact List.count_eq_one_of_mem hnd hmem

/-- C1 witness: a session with four distinct registered handles, torn down by
a response close followed by a request error. -/
theorem timerRegistry_spec_witness :
    ([TeardownEvent.responseClose, TeardownEvent.requestError] ≠ ([] : List TeardownEvent))
    ∧ (applyEvents [TeardownEvent.responseClose, TeardownEvent.requestError]
          ⟨⟨some 1, some 2, some 3, none, none, some 4⟩, []⟩ =
        clearTimersAndIntervals ⟨⟨some 1, some 2, some 3, none, none, some 4⟩, []⟩
      ∧ (clearTimersAndIntervals ⟨⟨some 1, some 2, some 3, none, none, some 4⟩, []⟩).cleared =
          registeredHandles ⟨some 1, some 2, some 3, none, none, some 4⟩
      ∧ (clearTimersAndIntervals ⟨⟨some 1, some 2, some 3, none, none, some 4⟩, []⟩).slots =
          ⟨none, none, none, none, none, none⟩
      ∧ clearTimersAndIntervals
            (clearTimersAndIntervals ⟨⟨some 1, some 2, some 3, none, none, some 4⟩, []⟩) =
          clearTimersAndIntervals ⟨⟨some 1, some 2, some 3, none, none, some 4⟩, []⟩
      ∧ ∀ h ∈ registeredHandles ⟨some 1, some 2, some 3, none, none, some 4⟩,
          (applyEvents [TeardownEvent.responseClose, TeardownEvent.requestError]
              ⟨⟨some 1, some 2, some 3, none, none, some 4⟩, []⟩).cleared.count h = 1) :=
  ⟨by decide,
    timerRegistry_spec ⟨⟨some 1, some 2, some 3, none, none, some 4⟩, []⟩
      [TeardownEvent.responseClose, TeardownEvent.requestError]
      (by decide) (by decide) rfl⟩

theorem feedChunks_closed (chunks : List (List Nat)) (n : Nat) (acc : List (List Nat))
    (buf : Option (List Nat)) :
    feedChunks chunks ⟨n, some acc, buf⟩ =
      ⟨n + (chunks.map List.length).sum, some (acc ++ chunks), buf⟩ := by
  induction chunks generalizing n acc with
  | nil => simp [feedChunks]
  | cons c cs ih =>
    show feedChunks cs (onData c ⟨n, some acc, buf⟩) = _
    rw [show onData c ⟨n, some acc, buf⟩ = ⟨n + c.length, some (acc ++ [c]), buf⟩ from rfl, ih]
    simp [Nat.add_assoc]

/-- C7: for every ordered sequence of inbound body chunks, after the "end"
signal the recorded body is the concatenation of exactly those chunks in
arrival order; when no chunks arrived the body buffer is still null (an empty
body); and the "data" handler never touches the completed body buffer. -/
theorem bodyAccumulator_spec (chunks : List (List Nat)) :
    recordedBody (onEnd (feedChunks chunks initAccum)) = chunks.flatten
    ∧ (chunks = [] → (onEnd (feedChunks chunks initAccum)).requestBodyBuffer = none)
    ∧ (chunks.flatten ≠ [] →
        (onEnd (feedChunks chunks initAccum)).requestBodyBuffer = some chunks.flatten)
    ∧ ∀ c s, (onData c s).requestBodyBuffer = s.requestBodyBuffer := by
  have hfeed : feedChunks chunks initAccum =
      ⟨(chunks.map List.length).sum, some chunks, none⟩ := by
    rw [show initAccum = ⟨0, some [], none⟩ from rfl, feedChunks_closed]
    simp
  have hlen : (chunks.map List.length).sum = chunks.flatten.length :=
    (List.length_flatten chunks).symm
  refine ⟨?_, ?_, ?_, fun c s => rfl⟩
  · rw [hfeed, onEnd]
    by_cases hpos : ((⟨(chunks.map List.length).sum, some chunks, none⟩ :
        BodyAccum).requestBodyBufferSize > 0)
    · rw [if_pos hpos]
      simp [recordedBody]
    · rw [if_neg hpos]
      simp only [not_lt, Nat.le_zero] at hpos
      have : chunks.flatten.length = 0 := by
        rw [← hlen]
        exact hpos
      simp [recordedBody, List.length_eq_zero.mp this]
  · intro h
    subst h
    rfl
  · intro hne
    rw [hfeed, onEnd]
    have hpos : ((⟨(chunks.map List.length).sum, some chunks, none⟩ :
        BodyAccum).requestBodyBufferSize > 0) := by
      show 0 < (chunks.map List.length).sum
      rw [hlen]
      exact List.length_pos.mpr hne
    rw [if_pos hpos]
    simp

/-! ## Claims about the lifecycle state machine -/

/-- C5: `start()` in STARTING/LISTENING returns the identical existing start
promise without re-issuing the operation; in STOPPING it throws the
NotStartable error synchronously; from CREATED/STOPPED it launches a fresh
pending start whose "listening" completion sets the state to LISTENING and
records the actually bound host and port, and whose "error" completion
reverts to the state held immediately before the call and rejects with the
underlying OS-level error. -/
theorem start_spec (s : Server) :
    ((s.state = ServerState.starting ∨ s.state = ServerState.listening) →
      start s = StartResult.reused s.startPromise)
    ∧ (s.state = ServerState.stopping → start s = StartResult.notStartable)
    ∧ ((s.state = ServerState.created ∨ s.state = ServerState.stopped) →
      ∃ s2, start s = StartResult.launched s.nextPromise s.state s2
        ∧ s2.state = ServerState.starting
        ∧ (∀ bh bp, (startOnListening s2 bh bp).1.state = ServerState.listening
            ∧ (startOnListening s2 bh bp).1.host = bh
            ∧ (startOnListening s2 bh bp).1.port = bp
            ∧ (startOnListening s2 bh bp).2 = ServerState.listening)
        ∧ (∀ code, (startOnError s2 s.state code).1.state = s.state
            ∧ (startOnError s2 s.state code).2 = code)) := by
  refine ⟨fun h => ?_, fun h => ?_, fun h => ?_⟩
  · rw [start, if_pos h]
  · rw [start, if_neg, if_pos]
    · rw [h]
      exact ⟨by simp, by simp⟩
    · rw [h]
      rintro (hc | hc) <;> exact ServerState.noConfusion hc
  · have hns : ¬(s.state = ServerState.starting ∨ s.state = ServerState.listening) := by
      rcases h with h | h <;> rw [h] <;> rintro (hc | hc) <;> exact ServerState.noConfusion hc
    have hok : ¬(s.state ≠ ServerState.created ∧ s.state ≠ ServerState.stopped) := by
      rcases h with h | h <;> rw [h] <;> simp
    refine ⟨⟨ServerState.starting, s.host, s.port, some s.nextPromise, s.stopPromise,
        s.nextPromise + 1⟩,
      by rw [start, if_neg hns, if_neg hok], rfl, fun bh bp => ⟨rfl, rfl, rfl, rfl⟩,
      fun code => ⟨rfl, rfl⟩⟩

/-- C5 witness: a created server launches a start; a listening server returns
its memoized promise; a stopping server gets the NotStartable error. -/
theorem start_spec_witness :
    ((ServerState.listening = ServerState.starting ∨
        ServerState.listening = ServerState.listening)
      ∧ start ⟨ServerState.listening, "127.0.0.1", 8080, some 5, none, 6⟩ =
          StartResult.reused (some 5))
    ∧ start ⟨ServerState.stopping, "127.0.0.1", 8080, some 5, some 6, 7⟩ =
        StartResult.notStartable
    ∧ ∃ s2, start ⟨ServerState.created, "127.0.0.1", 8080, none, none, 0⟩ =
          StartResult.launched 0 ServerState.created s2
        ∧ s2.state = ServerState.starting
        ∧ (∀ bh bp, (startOnListening s2 bh bp).1.state = ServerState.listening
            ∧ (startOnListening s2 bh bp).1.host = bh
            ∧ (startOnListening s2 bh bp).1.port = bp
            ∧ (startOnListening s2 bh bp).2 = ServerState.listening)
        ∧ (∀ code, (startOnError s2 ServerState.created code).1.state = ServerState.created
            ∧ (startOnError s2 ServerState.created code).2 = code) :=
  ⟨⟨Or.inr rfl,
      (start_spec ⟨ServerState.listening, "127.0.0.1", 8080, some 5, none, 6⟩).1 (Or.inr rfl)⟩,
    (start_spec ⟨ServerState.stopping, "127.0.0.1", 8080, some 5, some 6, 7⟩).2.1 rfl,
    (start_spec ⟨ServerState.created, "127.0.0.1", 8080, none, none, 0⟩).2.2 (Or.inl rfl)⟩

/-- C6: `stop()` in STOPPING/STOPPED returns the identical existing stop
promise; in CREATED/STARTING it throws the NotStoppable error synchronously;
from LISTENING it launches a fresh pending stop whose "close" completion
resolves to STOPPED and whose "error" completion reverts to LISTENING and
rejects with the underlying OS-level error. -/
theorem stop_spec (s : Server) :
    ((s.state = ServerState.stopping ∨ s.state = ServerState.stopped) →
      stop s = StopResult.reused s.stopPromise)
    ∧ ((s.state = ServerState.created ∨ s.state = ServerState.starting) →
      stop s = StopResult.notStoppable)
    ∧ (s.state = ServerState.listening →
      ∃ s2, stop s = StopResult.launched s.nextPromise s.state s2
        ∧ s2.state = ServerState.stopping
        ∧ (stopOnClose s2).1.state = ServerState.stopped
        ∧ (stopOnClose s2).2 = ServerState.stopped
        ∧ (∀ code, (stopOnError s2 s.state code).1.state = ServerState.listening
            ∧ (stopOnError s2 s.state code).2 = code)) := by
  refine ⟨fun h => ?_, fun h => ?_, fun h => ?_⟩
  · rw [stop, if_pos h]
  · rw [stop, if_neg, if_pos]
    · rcases h with h | h <;> rw [h] <;> rintro hc <;> exact ServerState.noConfusion hc
    · rcases h with h | h <;> rw [h] <;> rintro (hc | hc) <;> exact ServerState.noConfusion hc
  · have hns : ¬(s.state = ServerState.stopping ∨ s.state = ServerState.stopped) := by
      rw [h]
      rintro (hc | hc) <;> exact ServerState.noConfusion hc
    refine ⟨⟨ServerState.stopping, s.host, s.port, s.startPromise, some s.nextPromise,
        s.nextPromise + 1⟩,
      by rw [stop, if_neg hns, if_neg (by rw [h]; simp)], rfl, rfl, rfl,
      fun code => ⟨by rw [stopOnError, h], rfl⟩⟩

/-- C6 witness: a stopping server returns its memoized stop promise; a
starting server gets the NotStoppable error; a listening server launches a
stop. -/
theorem stop_spec_witness :
    ((ServerState.stopping = ServerState.stopping ∨
        ServerState.stopping = ServerState.stopped)
      ∧ stop ⟨ServerState.stopping, "127.0.0.1", 8080, some 5, some 7, 8⟩ =
          StopResult.reused (some 7))
    ∧ stop ⟨ServerState.starting, "127.0.0.1", 8080, some 5, none, 6⟩ =
        StopResult.notStoppable
    ∧ ∃ s2, stop ⟨ServerState.listening, "127.0.0.1", 8080, some 5, none, 6⟩ =
          StopResult.launched 6 ServerState.listening s2
        ∧ s2.state = ServerState.stopping
        ∧ (stopOnClose s2).1.state = ServerState.stopped
        ∧ (stopOnClose s2).2 = ServerState.stopped
        ∧ (∀ code, (stopOnError s2 ServerState.listening code).1.state = ServerState.listening
            ∧ (stopOnError s2 ServerState.listening code).2 = code) :=
  ⟨⟨Or.inl rfl,
      (stop_spec ⟨ServerState.stopping, "127.0.0.1", 8080, some 5, some 7, 8⟩).1 (Or.inl rfl)⟩,
    (stop_spec ⟨ServerState.starting, "127.0.0.1", 8080, some 5, none, 6⟩).2.1 (Or.inr rfl),
    (stop_spec ⟨ServerState.listening, "127.0.0.1", 8080, some 5, none, 6⟩).2.2 rfl⟩

/-! ## Claims about the constructor -/

/-- C8: after applying the destructuring defaults, a non-string host value
throws the host-type error, a string host matching none of the IPv4, hostname
and FQDN syntaxes throws the host-format error, a non-integer port throws the
port-type error, an integer port outside 0..65535 throws the bounds error —
all synchronously, before any server resource exists (an `Except.error` in
the model carries no server value) — and every valid pair yields an instance
in the CREATED state holding the given host and port. -/
theorem construct_spec (hv pv : JSVal) :
    ((∀ h : String, resolveHost hv ≠ JSVal.str h) →
      construct hv pv = Except.error CtorError.hostTypeInvalid)
    ∧ (∀ h : String, resolveHost hv = JSVal.str h →
        ipv4Match h = false → hostNameMatch h = false → fqdnMatch h = false →
        construct hv pv = Except.error CtorError.hostInvalid)
    ∧ (∀ h : String, resolveHost hv = JSVal.str h →
        (ipv4Match h = true ∨ hostNameMatch h = true ∨ fqdnMatch h = true) →
        (∀ n : Int, resolvePort pv ≠ JSVal.int n) →
        construct hv pv = Except.error CtorError.portTypeInvalid)
    ∧ (∀ (h : String) (n : Int), resolveHost hv = JSVal.str h →
        (ipv4Match h = true ∨ hostNameMatch h = true ∨ fqdnMatch h = true) →
        resolvePort pv = JSVal.int n → (n < 0 ∨ n > 65535) →
        construct hv pv = Except.error CtorError.portOutOfBounds)
    ∧ (∀ (h : String) (n : Int), resolveHost hv = JSVal.str h →
        (ipv4Match h = true ∨ hostNameMatch h = true ∨ fqdnMatch h = true) →
        resolvePort pv = JSVal.int n → 0 ≤ n → n ≤ 65535 →
        construct hv pv =
          Except.ok ⟨ServerState.created, h, n, none, none, 0⟩) := by
  have hcond : ∀ hs : String,
      (ipv4Match hs = true ∨ hostNameMatch hs = true ∨ fqdnMatch hs = true) →
      ¬(ipv4Match hs = false ∧ hostNameMatch hs = false ∧ fqdnMatch hs = false) := by
    rintro hs hmatch ⟨h1, h2, h3⟩
    rcases hmatch with hm | hm | hm <;> simp [hm] at h1 h2 h3
  refine ⟨fun hns => ?_, fun h hh hm1 hm2 hm3 => ?_, fun h hh hmatch hnp => ?_,
    fun h n hh hmatch hp hbad => ?_, fun h n hh hmatch hp h0 h65 => ?_⟩
  · rw [construct]
    cases hr : resolveHost hv with
    | str st => exact absurd hr (hns st)
    | int m => rfl
    | nonIntNum => rfl
    | undef => rfl
    | null => rfl
    | other => rfl
  · rw [construct, hh]
    simp only
    rw [if_pos ⟨hm1, hm2, hm3⟩]
  · rw [construct, hh]
    simp only
    rw [if_neg (hcond h hmatch)]
  · rw [construct, hh]
    simp only
    rw [if_neg (hcond h hmatch), hp]
    exact if_pos hbad
  · rw [construct, hh]
    simp only
    rw [if_neg (hcond h hmatch), hp]
    exact if_neg (by rintro (hc | hc) <;> omega)

/-- C8 witness: a non-string host, an invalid host string, a non-integer
port, an out-of-range port, and a fully valid pair. -/
theorem construct_spec_witness :
    construct JSVal.null (JSVal.int 8080) = Except.error CtorError.hostTypeInvalid
    ∧ construct (JSVal.str "-bad-") (JSVal.int 8080) = Except.error CtorError.hostInvalid
    ∧ construct (JSVal.str "localhost") JSVal.nonIntNum = Except.error CtorError.portTypeInvalid
    ∧ construct (JSVal.str "10.0.0.7") (JSVal.int 70000) = Except.error CtorError.portOutOfBounds
    ∧ construct (JSVal.str "example.com") (JSVal.int 0) =
        Except.ok ⟨ServerState.created, "example.com", 0, none, none, 0⟩ :=
  ⟨(construct_spec JSVal.null (JSVal.int 8080)).1 (fun h hc => JSVal.noConfusion hc),
    (construct_spec (JSVal.str "-bad-") (JSVal.int 8080)).2.1 "-bad-" rfl
      (by decide) (by decide) (by decide),
    (construct_spec (JSVal.str "localhost") JSVal.nonIntNum).2.2.1 "localhost" rfl
      (Or.inr (Or.inl (by decide))) (fun n hc => JSVal.noConfusion hc),
    (construct_spec (JSVal.str "10.0.0.7") (JSVal.int 70000)).2.2.2.1 "10.0.0.7" 70000 rfl
      (Or.inl (by decide)) rfl (Or.inr (by decide)),
    (construct_spec (JSVal.str "example.com") (JSVal.int 0)).2.2.2.2 "example.com" 0 rfl
      (Or.inr (Or.inr (by decide))) rfl (by decide) (by decide)⟩

/-! ## Buffer lemmas -/

theorem bufEqb_refl (a : Buf) : bufEqb a a = true := by
  simp [bufEqb, List.all_eq_true]

theorem bufEqb_of_size_ne (a b : Buf) (h : a.size ≠ b.size) : bufEqb a b = false := by
  simp [bufEqb, h]

theorem bufEqb_of_byte_ne (a b : Buf) (j : Nat) (hj : j < a.size)
    (hne : a.byte j ≠ b.byte j) : bufEqb a b = false := by
  have hall : ((List.range a.size).all (fun i => a.byte i == b.byte i)) = false := by
    by_contra hcon
    rw [Bool.not_eq_false, List.all_eq_true] at hcon
    exact hne (by simpa using hcon j (List.mem_range.mpr hj))
  simp [bufEqb, hall]

theorem repBytes_length (s : List Nat) (n : Nat) : (repBytes s n).length = n * s.length := by
  simp [repBytes, List.length_flatten, Function.comp]

/-! ## Claims about `/checkpattern` -/

/-- C2: a POST to `/checkpattern` with content type
`application/octet-stream` and a body byte-equal to the 2,000,000-byte
pattern fixture is answered 200 with the received bytes echoed back, while a
body differing at any single index, a content type other than
`application/octet-stream`, or a GET request each get a 400 with an empty
body. -/
theorem checkpattern_spec :
    (∀ (method c : String) (b : Buf), jsToUpper method = "POST" →
      jsToLower c = "application/octet-stream" → bufEqb patternBuffer b = true →
      checkpatternClose method (some c) (some b) =
        Except.ok ⟨200, some "application/octet-stream", some PATTERN_SIZE, some b⟩)
    ∧ (∀ (method : String) (ct : Option String) (b : Buf) (j : Nat),
        b.size = patternBuffer.size → j < b.size → b.byte j ≠ patternBuffer.byte j →
        checkpatternClose method ct (some b) = Except.ok resp400)
    ∧ (∀ (method c : String) (body : Option Buf), jsToLower c ≠ "application/octet-stream" →
        checkpatternClose method (some c) body = Except.ok resp400)
    ∧ (∀ (method : String) (ct : Option String) (body : Option Buf),
        jsToUpper method = "GET" →
        checkpatternClose method ct body = Except.ok resp400) := by
  refine ⟨fun method c b hm hc hb => ?_, fun method ct b j hsz hj hbyte => ?_,
    fun method c body hc => ?_, fun method ct body hm => ?_⟩
  · simp [checkpatternClose, hm, hc, hb]
  · have hfalse : bufEqb patternBuffer b = false :=
      bufEqb_of_byte_ne patternBuffer b j (by omega) (fun hcon => hbyte hcon.symm)
    rw [checkpatternClose.eq_def]
    split
    · rfl
    · cases ct with
      | none => rfl
      | some c =>
        simp only
        split
        · rfl
        · simp [hfalse]
  · rw [checkpatternClose.eq_def]
    split
    · rfl
    · simp [hc]
  · rw [checkpatternClose.eq_def, if_pos (by rw [hm]; decide)]

/-- C2 witness: the exact pattern body is echoed with 200; flipping byte 0
of the fixture, using content type `text/plain`, or using GET each give the
empty 400. -/
theorem checkpattern_spec_witness :
    checkpatternClose "POST" (some "application/octet-stream") (some patternBuffer) =
      Except.ok ⟨200, some "application/octet-stream", some PATTERN_SIZE, some patternBuffer⟩
    ∧ checkpatternClose "POST" (some "application/octet-stream")
        (some ⟨patternBuffer.size, fun i => if i = 0 then 85 else patternBuffer.byte i⟩) =
      Except.ok resp400
    ∧ checkpatternClose "POST" (some "text/plain") (some patternBuffer) = Except.ok resp400
    ∧ checkpatternClose "GET" (some "application/octet-stream") (some patternBuffer) =
      Except.ok resp400 :=
  ⟨checkpattern_spec.1 "POST" "application/octet-stream" patternBuffer (by decide)
      (by decide) (bufEqb_refl patternBuffer),
    checkpattern_spec.2.1 "POST" (some "application/octet-stream")
      ⟨patternBuffer.size, fun i => if i = 0 then 85 else patternBuffer.byte i⟩ 0 rfl
      (by decide) (by decide),
    checkpattern_spec.2.2.1 "POST" "text/plain" (some patternBuffer) (by decide),
    checkpattern_spec.2.2.2 "GET" (some "application/octet-stream") (some patternBuffer)
      (by decide)⟩

/-- C9: contrary to the claim, the combined validation of `/checkpattern` and
`/checkstring` is not total on an empty body: a POST with the route's
required content type whose body buffer is still null reaches
`Buffer.compare(patternBuffer, null)`, which throws a `TypeError` instead of
producing the 400 response. -/
theorem checkBody_null_throws :
    checkpatternClose "POST" (some "application/octet-stream") none = Except.error ()
    ∧ checkstringClose "POST" (some "text/plain") none = Except.error () :=
  ⟨rfl, rfl⟩

/-! ## Claim about the pattern fixtures -/

/-- C10: the binary fixture is exactly 2,000,000 bytes whose byte at index
`i` is the UTF-8 byte of the pattern string at `i mod 18`; 2,000,000 is not
a multiple of 18, so the fixture differs (already in size) from every
whole-number repetition of the string, in particular from the
1,800,000-byte text fixture of `/checkstring`. -/
theorem patternFixture_spec :
    patternBuffer.size = 2000000
    ∧ patternStringBytes.length = 18
    ∧ (∀ i, patternBuffer.byte i = patternStringBytes.getD (i % 18) 0)
    ∧ (∀ k, 18 * k ≠ 2000000)
    ∧ (∀ k, bufEqb patternBuffer (listBuf (repBytes patternStringBytes k)) = false)
    ∧ stringPatternBuffer.size = 1800000
    ∧ bufEqb patternBuffer stringPatternBuffer = false := by
  have hlen : patternStringBytes.length = 18 := by decide
  have hmul : ∀ k, 18 * k ≠ 2000000 := fun k => by omega
  have hrep : ∀ k, (repBytes patternStringBytes k).length = 18 * k := fun k => by
    rw [repBytes_length, hlen, Nat.mul_comm]
  refine ⟨rfl, hlen, fun i => ?_, hmul, fun k => ?_, ?_, ?_⟩
  · rw [patternBuffer, allocFill]
    simp only
    rw [hlen]
  · refine bufEqb_of_size_ne _ _ ?_
    show PATTERN_SIZE ≠ (repBytes patternStringBytes k).length
    rw [hrep]
    exact fun hcon => hmul k (hcon.symm)
  · show (repBytes patternStringBytes PATTERN_STRING_REPEAT).length = 1800000
    rw [hrep]
    decide
  · refine bufEqb_of_size_ne _ _ ?_
    show PATTERN_SIZE ≠ (repBytes patternStringBytes PATTERN_STRING_REPEAT).length
    rw [hrep]
    decide

/-! ## Chunked writer lemmas -/

theorem writeLoopAux_chunks (hwm : Nat) (oracle : Nat → Bool) :
    ∀ (fuel idx : Nat) (rest : List Nat),
      writtenChunks (writeLoopAux hwm oracle fuel idx rest) = chunkPartitionAux hwm fuel rest := by
  intro fuel
  induction fuel with
  | zero => intro idx rest; rfl
  | succ n ih =>
    intro idx rest
    cases rest with
    | nil => rfl
    | cons x xs =>
      cases horc : oracle idx <;>
        simp [writeLoopAux, horc, writtenChunks, chunkPartitionAux, ← ih (idx + 1)] <;>
        rfl

theorem chunkPartitionAux_flatten (hwm : Nat) (hw : 0 < hwm) :
    ∀ (fuel : Nat) (rest : List Nat), rest.length < fuel →
      (chunkPartitionAux hwm fuel rest).flatten = rest := by
  intro fuel
  induction fuel with
  | zero => intro rest h; omega
  | succ n ih =>
    intro rest hlen
    cases rest with
    | nil => rfl
    | cons x xs =>
      have hk1 : 1 ≤ min hwm (x :: xs).length := by
        have : (x :: xs).length = xs.length + 1 := rfl
        omega
      have hdrop : ((x :: xs).drop (min hwm (x :: xs).length)).length < n := by
        have h1 : (x :: xs).length = xs.length + 1 := rfl
        simp only [List.length_drop]
        omega

      show ((x :: xs).take (min hwm (x :: xs).length) ::
          chunkPartitionAux hwm n ((x :: xs).drop (min hwm (x :: xs).length))).flatten = x :: xs
      rw [List.flatten_cons, ih _ hdrop, List.take_append_drop]

theorem writeLoopAux_endW (hwm : Nat) (hw : 0 < hwm) (oracle : Nat → Bool) :
    ∀ (fuel idx : Nat) (rest : List Nat), rest.length < fuel →
      ∃ pre, writeLoopAux hwm oracle fuel idx rest = pre ++ [WEvent.endW]
        ∧ WEvent.endW ∉ pre := by
  intro fuel
  induction fuel with
  | zero => intro idx rest h; omega
  | succ n ih =>
    intro idx rest hlen
    cases rest with
    | nil => exact ⟨[], rfl, by simp⟩
    | cons x xs =>
      have hk1 : 1 ≤ min hwm (x :: xs).length := by
        have : (x :: xs).length = xs.length + 1 := rfl
        omega
      have hdrop : ((x :: xs).drop (min hwm (x :: xs).length)).length < n := by
        have h1 : (x :: xs).length = xs.length + 1 := rfl
        simp only [List.length_drop]
        omega
      obtain ⟨pre, hpre, hnotin⟩ := ih (idx + 1) ((x :: xs).drop (min hwm (x :: xs).length)) hdrop
      have hstep : writeLoopAux hwm oracle (n + 1) idx (x :: xs) =
          if oracle idx then
            WEvent.wchunk ((x :: xs).take (min hwm (x :: xs).length)) ::
              writeLoopAux hwm oracle n (idx + 1) ((x :: xs).drop (min hwm (x :: xs).length))
          else
            WEvent.wchunk ((x :: xs).take (min hwm (x :: xs).length)) :: WEvent.suspendW ::
              WEvent.drainW ::
              writeLoopAux hwm oracle n (idx + 1) ((x :: xs).drop (min hwm (x :: xs).length)) :=
        rfl
      cases horc : oracle idx with
      | true =>
        refine ⟨WEvent.wchunk ((x :: xs).take (min hwm (x :: xs).length)) :: pre, ?_,
          by simp [hnotin]⟩
        rw [hstep, if_pos horc, hpre]
        rfl
      | false =>
        refine ⟨WEvent.wchunk ((x :: xs).take (min hwm (x :: xs).length)) :: WEvent.suspendW ::
          WEvent.drainW :: pre, ?_, by simp [hnotin]⟩
        rw [hstep, if_neg (by simp [horc]), hpre]
        rfl

theorem writeLoopAux_disciplined (hwm : Nat) (hw : 0 < hwm) (oracle : Nat → Bool) :
    ∀ (fuel idx : Nat) (rest : List Nat), rest.length < fuel →
      disciplinedAux false (writeLoopAux hwm oracle fuel idx rest) = true := by
  intro fuel
  induction fuel with
  | zero => intro idx rest h; omega
  | succ n ih =>
    intro idx rest hlen
    cases rest with
    | nil => rfl
    | cons x xs =>
      have hdrop : ((x :: xs).drop (min hwm (x :: xs).length)).length < n := by
        have h1 : (x :: xs).length = xs.length + 1 := rfl
        simp only [List.length_drop]
        omega
      have hstep : writeLoopAux hwm oracle (n + 1) idx (x :: xs) =
          if oracle idx then
            WEvent.wchunk ((x :: xs).take (min hwm (x :: xs).length)) ::
              writeLoopAux hwm oracle n (idx + 1) ((x :: xs).drop (min hwm (x :: xs).length))
          else
            WEvent.wchunk ((x :: xs).take (min hwm (x :: xs).length)) :: WEvent.suspendW ::
              WEvent.drainW ::
              writeLoopAux hwm oracle n (idx + 1) ((x :: xs).drop (min hwm (x :: xs).length)) :=
        rfl
      cases horc : oracle idx with
      | true =>
        rw [hstep, if_pos horc]
        show (!false && disciplinedAux false
          (writeLoopAux hwm oracle n (idx + 1)
            ((x :: xs).drop (min hwm (x :: xs).length)))) = true
        rw [ih (idx + 1) _ hdrop]
        rfl
      | false =>
        rw [hstep, if_neg (by simp [horc])]
        show (!false && (!false && (true && disciplinedAux false
          (writeLoopAux hwm oracle n (idx + 1)
            ((x :: xs).drop (min hwm (x :: xs).length)))))) = true
        rw [ih (idx + 1) _ hdrop]
        rfl

/-! ## Claim about the chunked transfer writer -/

/-- C3: for every byte source and positive transport write limit, one run of
the chunked writer emits consecutive chunks of size `min(limit, remaining)`
partitioning the source in order with no byte skipped or duplicated, obeys
the backpressure discipline (after a write reporting backpressure nothing is
written until the drain signal, and the blocked state never overlaps another
write), and closes the outbound stream exactly once, as the final event after
the last accepted chunk. -/
theorem chunkedWriter_spec (hwm : Nat) (oracle : Nat → Bool) (src : List Nat)
    (hw : 0 < hwm) :
    writtenChunks (writeResponseBody hwm oracle src) = chunkPartition hwm src
    ∧ (writtenChunks (writeResponseBody hwm oracle src)).flatten = src
    ∧ (∃ pre, writeResponseBody hwm oracle src = pre ++ [WEvent.endW]
        ∧ WEvent.endW ∉ pre)
    ∧ disciplined (writeResponseBody hwm oracle src) = true := by
  have hlt : src.length < src.length + 1 := Nat.lt_succ_self _
  refine ⟨writeLoopAux_chunks hwm oracle (src.length + 1) 0 src, ?_,
    writeLoopAux_endW hwm hw oracle (src.length + 1) 0 src hlt,
    writeLoopAux_disciplined hwm hw oracle (src.length + 1) 0 src hlt⟩
  rw [writeResponseBody, writeLoopAux_chunks hwm oracle (src.length + 1) 0 src]
  exact chunkPartitionAux_flatten hwm hw (src.length + 1) src hlt

/-- C3 witness: a five-byte source with a write limit of two and a transport
that reports backpressure on every second write. -/
theorem chunkedWriter_spec_witness :
    0 < 2
    ∧ (writtenChunks (writeResponseBody 2 (fun i => i % 2 == 0) [10, 11, 12, 13, 14]) =
        chunkPartition 2 [10, 11, 12, 13, 14]
      ∧ (writtenChunks (writeResponseBody 2 (fun i => i % 2 == 0) [10, 11, 12, 13, 14])).flatten =
          [10, 11, 12, 13, 14]
      ∧ (∃ pre, writeResponseBody 2 (fun i => i % 2 == 0) [10, 11, 12, 13, 14] =
            pre ++ [WEvent.endW] ∧ WEvent.endW ∉ pre)
      ∧ disciplined (writeResponseBody 2 (fun i => i % 2 == 0) [10, 11, 12, 13, 14]) = true) :=
  ⟨by decide, chunkedWriter_spec 2 (fun i => i % 2 == 0) [10, 11, 12, 13, 14] (by decide)⟩

/-! ## Claim about `/checkjson` -/

/-- C4: the `/checkjson` handler checks, in order, method, content-type
header, parseability, and deep equality with the fixture (key order
irrelevant), answering 400 with the first failing check's own plain-text
message as the whole body — no part of the echo — and answering 200
`application/json` with the re-serialized canonical fixture when all four
hold. -/
theorem checkjson_spec :
    (∀ (method : String) (ct : Option String) (parsed : Option Json),
      jsToUpper method ≠ "POST" →
      checkjsonClose method ct parsed =
        sendPlainTextResponse 400 "The HTTP request method is not POST.")
    ∧ (∀ (method : String) (parsed : Option Json), jsToUpper method = "POST" →
        checkjsonClose method none parsed =
          sendPlainTextResponse 400
            "The HTTP request \"Content-Type\" header is not \"application/json\"."
        ∧ ∀ c : String, jsToLower c ≠ "application/json" →
            checkjsonClose method (some c) parsed =
              sendPlainTextResponse 400
                "The HTTP request \"Content-Type\" header is not \"application/json\".")
    ∧ (∀ (method c : String), jsToUpper method = "POST" →
        jsToLower c = "application/json" →
        checkjsonClose method (some c) none =
          sendPlainTextResponse 400 "The HTTP request body is not parseable as JSON.")
    ∧ (∀ (method c : String) (j : Json), jsToUpper method = "POST" →
        jsToLower c = "application/json" → jsonEq j JSON_OBJECT = false →
        checkjsonClose method (some c) (some j) =
          sendPlainTextResponse 400
            "The HTTP request body JSON object does not match the pattern JSON object.")
    ∧ (∀ (method c : String) (j : Json), jsToUpper method = "POST" →
        jsToLower c = "application/json" → jsonEq j JSON_OBJECT = true →
        checkjsonClose method (some c) (some j) =
          ⟨200, some "application/json", some (strBuf (stringify JSON_OBJECT)).size,
            some (strBuf (stringify JSON_OBJECT))⟩) := by
  refine ⟨fun method ct parsed hm => ?_, fun method parsed hm => ⟨?_, fun c hc => ?_⟩,
    fun method c hm hc => ?_, fun method c j hm hc hj => ?_, fun method c j hm hc hj => ?_⟩
  · simp [checkjsonClose, hm]
  · simp [checkjsonClose, hm]
  · simp [checkjsonClose, hm, hc]
  · simp [checkjsonClose, hm, hc]
  · simp [checkjsonClose, hm, hc, hj]
  · simp [checkjsonClose, hm, hc, hj]

/-- C4 witness: a DELETE request, a `text/html` content type on a lowercase
`post`, an unparsable body, a structurally different body, and the spec's
key-reordered copy of the fixture, which is echoed as the canonical
serialization. -/
theorem checkjson_spec_witness :
    checkjsonClose "DELETE" (some "application/json") none =
      sendPlainTextResponse 400 "The HTTP request method is not POST."
    ∧ checkjsonClose "post" (some "text/html") none =
      sendPlainTextResponse 400
        "The HTTP request \"Content-Type\" header is not \"application/json\"."
    ∧ checkjsonClose "POST" (some "application/json") none =
      sendPlainTextResponse 400 "The HTTP request body is not parseable as JSON."
    ∧ checkjsonClose "POST" (some "application/json") (some (Json.jnum 1)) =
      sendPlainTextResponse 400
        "The HTTP request body JSON object does not match the pattern JSON object."
    ∧ checkjsonClose "POST" (some "Application/JSON")
        (some (Json.jobj
          [("lastName", Json.jstr "Doe"),
           ("firstName", Json.jstr "John"),
           ("age", Json.jnum 25),
           ("isActive", Json.jbool true),
           ("address",
             Json.jobj
               [("zip", Json.jnum 12345),
                ("city", Json.jstr "Anytown"),
                ("state", Json.jstr "CA"),
                ("street", Json.jstr "Somewhere")])])) =
      ⟨200, some "application/json", some (strBuf (stringify JSON_OBJECT)).size,
        some (strBuf (stringify JSON_OBJECT))⟩ :=
  ⟨checkjson_spec.1 "DELETE" (some "application/json") none (by decide),
    (checkjson_spec.2.1 "post" none (by decide)).2 "text/html" (by decide),
    checkjson_spec.2.2.1 "POST" "application/json" (by decide) (by decide),
    checkjson_spec.2.2.2.1 "POST" "application/json" (Json.jnum 1) (by decide) (by decide)
      (by simp [jsonEq.eq_def, JSON_OBJECT]),
    checkjson_spec.2.2.2.2 "POST" "Application/JSON"
      (Json.jobj
        [("lastName", Json.jstr "Doe"),
         ("firstName", Json.jstr "John"),
         ("age", Json.jnum 25),
         ("isActive", Json.jbool true),
         ("address",
           Json.jobj
             [("zip", Json.jnum 12345),
              ("city", Json.jstr "Anytown"),
              ("state", Json.jstr "CA"),
              ("street", Json.jstr "Somewhere")])])
      (by decide) (by decide)
      (by simp [jsonEq, jsonObjSub, jsonFind, jsonListEq, JSON_OBJECT])⟩

end HTTPTestServer
